import Mathlib

/-!
Verification of the S3 "Bucket Lister" Lambda handler
(`lambda_function.py`) and the hello-world variant handler
(`lambda/lambda_function.py`), embedded shallowly in Lean.

The handler is pure except for the single storage-provider call, which we
model as an explicit function argument `s3 : String → Nat → ListResult`
(bucket, MaxKeys).  Printing and JSON serialization are elided; the JSON
body is modelled structurally, with `Option` fields recording which keys
are present in the emitted document.
-/

namespace BucketLister

/-- A Python `datetime.datetime` value as used by the handler: only the
six calendar/clock fields appear (the tests build naive datetimes). -/
structure PyDatetime where
  year : Nat
  month : Nat
  day : Nat
  hour : Nat
  minute : Nat
  second : Nat
deriving DecidableEq, Repr

/-- Zero-pad a numeral to two digits, as Python's `datetime.isoformat`
renders month/day/hour/minute/second. -/
def pad2 (n : Nat) : String :=
  if n < 10 then "0" ++ toString n else toString n

/-- Zero-pad a numeral to four digits, as Python renders the year. -/
def pad4 (n : Nat) : String :=
  if n < 10 then "000" ++ toString n
  else if n < 100 then "00" ++ toString n
  else if n < 1000 then "0" ++ toString n
  else toString n

/-- `datetime.isoformat()` for a whole-second naive datetime:
`YYYY-MM-DDTHH:MM:SS`. -/
def PyDatetime.isoformat (d : PyDatetime) : String :=
  pad4 d.year ++ "-" ++ pad2 d.month ++ "-" ++ pad2 d.day ++ "T" ++
    pad2 d.hour ++ ":" ++ pad2 d.minute ++ ":" ++ pad2 d.second

/-- One entry of the provider's `Contents` list: the `Key`, `Size` and
`LastModified` attributes the handler reads. -/
structure S3Obj where
  key : String
  size : Int
  lastModified : PyDatetime
deriving DecidableEq, Repr

/-- Outcome of `s3_client.list_objects_v2`: a successful response whose
`Contents` key may be absent (`none`) or present with a list; a
`botocore` `ClientError` carrying `e.response.Error.Code` and
`e.response.Error.Message`; or any other runtime exception, carrying its
`str(e)` description. -/
inductive ListResult where
  | success (contents : Option (List S3Obj))
  | clientError (code : String) (msg : String)
  | exception (descr : String)
deriving DecidableEq, Repr

/-- One element of the response body's `objects` array:
`{'key': ..., 'size': ..., 'last_modified': ...}`. -/
structure ObjectSummary where
  key : String
  size : Int
  last_modified : String
deriving DecidableEq, Repr

/-- The JSON body of the S3 handler's response.  `Option` marks keys that
are present only on some paths; `hello` and `message` occur on every
path. -/
structure ResponseBody where
  message : String
  bucket : Option String
  object_count : Option Nat
  objects : Option (List ObjectSummary)
  error : Option String
  hello : String
deriving DecidableEq, Repr

/-- The response dict returned by a handler: `statusCode`, an optional
`headers` dict (the S3 handler never includes one), and the body.  The
body type is a parameter because the two handlers in the repository emit
different body shapes. -/
structure Envelope (β : Type) where
  statusCode : Nat
  headers : Option (List (String × String))
  body : β
deriving DecidableEq, Repr

/-- Python's `x or y` on optional strings: an empty string is falsy, so
`event.get('bucket_name') or os.environ.get('S3_BUCKET_NAME')` falls
through to the environment variable when the event value is absent or
`""`. -/
def pyOrStr (a b : Option String) : Option String :=
  match a with
  | some s => if s = "" then b else some s
  | none => b

/-- The 400 response built when no bucket name is resolvable. -/
def missingBucketResponse : Envelope ResponseBody :=
  { statusCode := 400
    headers := none
    body :=
      { message := "Error: No bucket name provided. Please specify bucket_name in event or S3_BUCKET_NAME environment variable."
        bucket := none
        object_count := none
        objects := none
        error := none
        hello := "world" } }

/-- The 200 response: `objects` is built by iterating the `Contents`
list in order (absent key means no iteration), formatting each entry's
`LastModified` with `isoformat`. -/
def successResponse (bucket : String) (contents : Option (List S3Obj)) :
    Envelope ResponseBody :=
  let objects := (contents.getD []).map fun o =>
    { key := o.key, size := o.size,
      last_modified := o.lastModified.isoformat : ObjectSummary }
  { statusCode := 200
    headers := none
    body :=
      { message := "Hello World! Successfully read from S3 bucket: " ++ bucket
        bucket := some bucket
        object_count := some objects.length
        objects := some objects
        error := none
        hello := "world" } }

/-- The 500 response of the `except ClientError` branch. -/
def clientErrorResponse (code msg : String) : Envelope ResponseBody :=
  { statusCode := 500
    headers := none
    body :=
      { message := "Error reading from S3 bucket: " ++ code
        bucket := none
        object_count := none
        objects := none
        error := some msg
        hello := "world" } }

/-- The 500 response of the generic `except Exception` branch. -/
def unexpectedResponse (descr : String) : Envelope ResponseBody :=
  { statusCode := 500
    headers := none
    body :=
      { message := "Unexpected error occurred"
        bucket := none
        object_count := none
        objects := none
        error := some descr
        hello := "world" } }

/-- The body of the `try` block: one `list_objects_v2` call at
`MaxKeys=10`, dispatched on its outcome. -/
def listAndRespond (bucket : String) (r : ListResult) : Envelope ResponseBody :=
  match r with
  | .success contents => successResponse bucket contents
  | .clientError code msg => clientErrorResponse code msg
  | .exception descr => unexpectedResponse descr

/-- `lambda_handler(event, context)` of `lambda_function.py`.  Inputs:
the event's optional `bucket_name`, the optional `S3_BUCKET_NAME`
environment variable, and the storage provider as a function of
(bucket, MaxKeys).  The context argument is unused by the source. -/
def lambda_handler (eventBucket envBucket : Option String)
    (s3 : String → Nat → ListResult) : Envelope ResponseBody :=
  match pyOrStr eventBucket envBucket with
  | none => missingBucketResponse
  | some b =>
      if b = "" then missingBucketResponse
      else listAndRespond b (s3 b 10)

/-- The invocation context fields read by the hello-world variant. -/
structure LambdaContext where
  function_name : String
  request_id : String
deriving DecidableEq, Repr

/-- The JSON body of the hello-world variant's response. -/
structure HelloBody where
  message : String
  timestamp : String
  function_name : String
  request_id : String
deriving DecidableEq, Repr

/-- `lambda_handler(event, context)` of `lambda/lambda_function.py`: the
demo handler with no storage access.  `now` is the
`datetime.now(timezone.utc)` sample; its `isoformat` goes into the body
verbatim. -/
def hello_handler (eventName : Option String) (now : PyDatetime)
    (ctx : Option LambdaContext) : Envelope HelloBody :=
  let name := eventName.getD "World"
  { statusCode := 200
    headers := some
      [("Content-Type", "application/json"),
       ("Access-Control-Allow-Origin", "*")]
    body :=
      { message := "Hello, " ++ name ++ "!"
        timestamp := now.isoformat
        function_name := (ctx.map (·.function_name)).getD "local"
        request_id := (ctx.map (·.request_id)).getD "N/A" } }

/-- Whether a response's headers dict is present and contains the given
header/value pair. -/
def hasHeader {β : Type} (r : Envelope β) (k v : String) : Bool :=
  match r.headers with
  | none => false
  | some hs => hs.contains (k, v)

end BucketLister

namespace BucketLister

/-! ### Concrete providers used by witnesses and counterexamples -/

/-- A provider returning the two-object listing of the test scenario. -/
def s3TwoFiles : String → Nat → ListResult := fun _ _ =>
  ListResult.success (some
    [{ key := "file1.txt", size := 1024, lastModified := ⟨2024, 1, 1, 12, 0, 0⟩ },
     { key := "file2.txt", size := 2048, lastModified := ⟨2024, 1, 2, 12, 0, 0⟩ }])

/-- A provider that agrees with `s3TwoFiles` at `MaxKeys = 10` but
differs elsewhere. -/
def s3Alt : String → Nat → ListResult := fun b k =>
  if k = 10 then s3TwoFiles b 10 else ListResult.exception "other"

/-- A provider failing with the `NoSuchBucket` structured error. -/
def s3NoSuchBucket : String → Nat → ListResult := fun _ _ =>
  ListResult.clientError "NoSuchBucket" "The specified bucket does not exist"

/-- A provider raising a generic runtime fault. -/
def s3Boom : String → Nat → ListResult := fun _ _ =>
  ListResult.exception "Unexpected error"

/-- C1: with a resolvable bucket and a provider success of N objects
(N ≤ 10), the handler returns 200, the resolved bucket name,
`object_count = N`, and `objects` built as (key, size, ISO last_modified)
in exactly the provider order; the no-`Contents` case yields count 0 and
an empty list. -/
theorem success_path_correct (eventBucket envBucket : Option String)
    (s3 : String → Nat → ListResult) (b : String) (contents : Option (List S3Obj))
    (hb : pyOrStr eventBucket envBucket = some b) (hne : b ≠ "")
    (hs : s3 b 10 = ListResult.success contents)
    (_hN : (contents.getD []).length ≤ 10) :
    (lambda_handler eventBucket envBucket s3).statusCode = 200 ∧
    (lambda_handler eventBucket envBucket s3).body.bucket = some b ∧
    (lambda_handler eventBucket envBucket s3).body.objects = some
      ((contents.getD []).map fun o =>
        { key := o.key, size := o.size,
          last_modified := o.lastModified.isoformat : ObjectSummary }) ∧
    (lambda_handler eventBucket envBucket s3).body.object_count =
      some (contents.getD []).length := by
  simp [lambda_handler, hb, hne, hs, listAndRespond, successResponse]

/-- Witness for C1: the two-file test scenario yields 200 with count 2
and the two summaries in order; the scenario satisfies each hypothesis. -/
theorem success_path_correct_witness :
    (lambda_handler (some "test-bucket") none s3TwoFiles).statusCode = 200 ∧
    (lambda_handler (some "test-bucket") none s3TwoFiles).body.bucket =
      some "test-bucket" ∧
    (lambda_handler (some "test-bucket") none s3TwoFiles).body.objects = some
      [{ key := "file1.txt", size := 1024, last_modified := "2024-01-01T12:00:00" },
       { key := "file2.txt", size := 2048, last_modified := "2024-01-02T12:00:00" }] ∧
    (lambda_handler (some "test-bucket") none s3TwoFiles).body.object_count =
      some 2 := by
  have h := success_path_correct (some "test-bucket") none s3TwoFiles "test-bucket"
    (some [{ key := "file1.txt", size := 1024, lastModified := ⟨2024, 1, 1, 12, 0, 0⟩ },
           { key := "file2.txt", size := 2048, lastModified := ⟨2024, 1, 2, 12, 0, 0⟩ }])
    (by decide) (by decide) rfl (by decide)
  refine ⟨h.1, h.2.1, ?_, ?_⟩
  · have := h.2.2.1
    simpa [PyDatetime.isoformat, pad2, pad4] using this
  · simpa using h.2.2.2

/-- C2: the handler is total on its model: every combination of event,
environment and provider behaviour yields a response envelope with one
of the three status codes; no failure escapes. -/
theorem handler_total (eventBucket envBucket : Option String)
    (s3 : String → Nat → ListResult) :
    (lambda_handler eventBucket envBucket s3).statusCode = 200 ∨
    (lambda_handler eventBucket envBucket s3).statusCode = 400 ∨
    (lambda_handler eventBucket envBucket s3).statusCode = 500 := by
  unfold lambda_handler
  split
  · simp [missingBucketResponse]
  · split
    · simp [missingBucketResponse]
    · unfold listAndRespond
      split <;>
        simp [successResponse, clientErrorResponse, unexpectedResponse]

end BucketLister

namespace BucketLister

/-- Case analysis on the handler: either no bucket resolves (absent or
empty) and the result is the fixed 400 response, or a non-empty bucket
resolves and the result is the dispatch on the provider's outcome. -/
theorem handler_cases (e env : Option String) (s3 : String → Nat → ListResult) :
    ((pyOrStr e env = none ∨ pyOrStr e env = some "") ∧
      lambda_handler e env s3 = missingBucketResponse) ∨
    (∃ b, pyOrStr e env = some b ∧ b ≠ "" ∧
      lambda_handler e env s3 = listAndRespond b (s3 b 10)) := by
  unfold lambda_handler
  rcases hp : pyOrStr e env with _ | b
  · exact Or.inl ⟨Or.inl rfl, rfl⟩
  · by_cases hb : b = ""
    · subst hb
      exact Or.inl ⟨Or.inr rfl, by simp⟩
    · exact Or.inr ⟨b, rfl, hb, by simp [hb]⟩

/-- C3: bucket resolution prefers a present non-empty event value, falls
back to the environment otherwise; the handler returns 400 exactly when
neither yields a non-empty value, and then returns the fixed
missing-bucket body (no bucket/objects fields, hello marker, message
stating no bucket was provided) without consulting the provider. -/
theorem bucket_resolution_and_400 :
    (∀ s env : Option String, ∀ v : String, s = some v → v ≠ "" →
      pyOrStr s env = some v) ∧
    (∀ env : Option String,
      pyOrStr none env = env ∧ pyOrStr (some "") env = env) ∧
    (∀ (e env : Option String) (s3 : String → Nat → ListResult),
      ((lambda_handler e env s3).statusCode = 400 ↔
        (pyOrStr e env = none ∨ pyOrStr e env = some ""))) ∧
    (∀ (e env : Option String) (s3 : String → Nat → ListResult),
      (pyOrStr e env = none ∨ pyOrStr e env = some "") →
      lambda_handler e env s3 = missingBucketResponse) ∧
    (missingBucketResponse.body.message =
        "Error: No bucket name provided. Please specify bucket_name in event or S3_BUCKET_NAME environment variable." ∧
      missingBucketResponse.body.hello = "world" ∧
      missingBucketResponse.body.bucket = none ∧
      missingBucketResponse.body.objects = none) ∧
    (∀ (e env : Option String) (s3a s3b : String → Nat → ListResult),
      (pyOrStr e env = none ∨ pyOrStr e env = some "") →
      lambda_handler e env s3a = lambda_handler e env s3b) := by
  have hterm : ∀ (e env : Option String) (s3 : String → Nat → ListResult),
      (pyOrStr e env = none ∨ pyOrStr e env = some "") →
      lambda_handler e env s3 = missingBucketResponse := by
    intro e env s3 h
    rcases h with h | h <;> simp [lambda_handler, h]
  refine ⟨?_, ?_, ?_, hterm, ?_, ?_⟩
  · intro s env v hs hv
    subst hs
    simp [pyOrStr, hv]
  · intro env
    exact ⟨rfl, rfl⟩
  · intro e env s3
    constructor
    · intro h400
      rcases handler_cases e env s3 with ⟨hmiss, _⟩ | ⟨b, _, _, hr⟩
      · exact hmiss
      · exfalso
        rw [hr] at h400
        rcases hsr : s3 b 10 with c | cc | d <;>
          rw [hsr] at h400 <;>
          simp [listAndRespond, successResponse, clientErrorResponse,
            unexpectedResponse] at h400
    · intro h
      rw [hterm e env s3 h]
      rfl
  · exact ⟨rfl, rfl, rfl, rfl⟩
  · intro e env s3a s3b h
    rw [hterm e env s3a h, hterm e env s3b h]

/-- Witness for C3: the event value wins when non-empty; with no event
value and no environment value the handler returns the 400
missing-bucket response regardless of the provider. -/
theorem bucket_resolution_and_400_witness :
    pyOrStr (some "test-bucket") (some "env-bucket") = some "test-bucket" ∧
    lambda_handler none none s3TwoFiles = missingBucketResponse ∧
    lambda_handler none none s3TwoFiles = lambda_handler none none s3Boom := by
  refine ⟨?_, ?_, ?_⟩
  · exact bucket_resolution_and_400.1 (some "test-bucket") (some "env-bucket")
      "test-bucket" rfl (by decide)
  · exact bucket_resolution_and_400.2.2.2.1 none none s3TwoFiles (Or.inl rfl)
  · exact bucket_resolution_and_400.2.2.2.2.2 none none s3TwoFiles s3Boom
      (Or.inl rfl)

/-- C4: a structured provider error yields 500, a message embedding the
provider error code, and an error field carrying the provider message
verbatim; the message differs from the generic-failure branch message. -/
theorem client_error_path (eventBucket envBucket : Option String)
    (s3 : String → Nat → ListResult) (b code msg : String)
    (hb : pyOrStr eventBucket envBucket = some b) (hne : b ≠ "")
    (hs : s3 b 10 = ListResult.clientError code msg) :
    (lambda_handler eventBucket envBucket s3).statusCode = 500 ∧
    (lambda_handler eventBucket envBucket s3).body.message =
      "Error reading from S3 bucket: " ++ code ∧
    (lambda_handler eventBucket envBucket s3).body.error = some msg ∧
    (lambda_handler eventBucket envBucket s3).body.message ≠
      "Unexpected error occurred" := by
  have hr : lambda_handler eventBucket envBucket s3 =
      clientErrorResponse code msg := by
    simp [lambda_handler, hb, hne, hs, listAndRespond]
  rw [hr]
  refine ⟨rfl, rfl, rfl, ?_⟩
  simp only [clientErrorResponse]
  intro hEq
  have hlen := congrArg String.length hEq
  rw [String.length_append] at hlen
  have h1 : ("Error reading from S3 bucket: " : String).length = 30 := by decide
  have h2 : ("Unexpected error occurred" : String).length = 25 := by decide
  omega

/-- Witness for C4: the NoSuchBucket scenario. -/
theorem client_error_path_witness :
    (lambda_handler (some "test-bucket") none s3NoSuchBucket).statusCode = 500 ∧
    (lambda_handler (some "test-bucket") none s3NoSuchBucket).body.message =
      "Error reading from S3 bucket: " ++ "NoSuchBucket" ∧
    (lambda_handler (some "test-bucket") none s3NoSuchBucket).body.error =
      some "The specified bucket does not exist" ∧
    (lambda_handler (some "test-bucket") none s3NoSuchBucket).body.message ≠
      "Unexpected error occurred" :=
  client_error_path (some "test-bucket") none s3NoSuchBucket "test-bucket"
    "NoSuchBucket" "The specified bucket does not exist"
    (by decide) (by decide) rfl

end BucketLister

namespace BucketLister

/-- C5 counterexample: the generic-failure message emitted by the code is
"Unexpected error occurred" (capital U), not the claimed
"unexpected error occurred": at a concrete generic fault the claimed
message is refuted. -/
theorem unexpected_message_counterexample :
    (lambda_handler (some "test-bucket") none s3Boom).statusCode = 500 ∧
    (lambda_handler (some "test-bucket") none s3Boom).body.message =
      "Unexpected error occurred" ∧
    (lambda_handler (some "test-bucket") none s3Boom).body.message ≠
      "unexpected error occurred" := by
  refine ⟨rfl, rfl, ?_⟩
  decide

/-- C5 amended: a generic fault during the provider call yields 500 with
the fixed message "Unexpected error occurred" (capital U) and an error
field carrying the fault's string description. -/
theorem unexpected_error_path (eventBucket envBucket : Option String)
    (s3 : String → Nat → ListResult) (b descr : String)
    (hb : pyOrStr eventBucket envBucket = some b) (hne : b ≠ "")
    (hs : s3 b 10 = ListResult.exception descr) :
    (lambda_handler eventBucket envBucket s3).statusCode = 500 ∧
    (lambda_handler eventBucket envBucket s3).body.message =
      "Unexpected error occurred" ∧
    (lambda_handler eventBucket envBucket s3).body.error = some descr := by
  have hr : lambda_handler eventBucket envBucket s3 =
      unexpectedResponse descr := by
    simp [lambda_handler, hb, hne, hs, listAndRespond]
  rw [hr]
  exact ⟨rfl, rfl, rfl⟩

/-- Witness for the amended C5: the concrete generic-fault scenario. -/
theorem unexpected_error_path_witness :
    (lambda_handler (some "test-bucket") none s3Boom).statusCode = 500 ∧
    (lambda_handler (some "test-bucket") none s3Boom).body.message =
      "Unexpected error occurred" ∧
    (lambda_handler (some "test-bucket") none s3Boom).body.error =
      some "Unexpected error" :=
  unexpected_error_path (some "test-bucket") none s3Boom "test-bucket"
    "Unexpected error" (by decide) (by decide) rfl

/-- C6: every return path of the handler carries the constant
hello = "world" marker in its body. -/
theorem hello_on_every_path (eventBucket envBucket : Option String)
    (s3 : String → Nat → ListResult) :
    (lambda_handler eventBucket envBucket s3).body.hello = "world" := by
  rcases handler_cases eventBucket envBucket s3 with ⟨_, hr⟩ | ⟨b, _, _, hr⟩
  · rw [hr]
    rfl
  · rw [hr]
    rcases s3 b 10 with c | cc | d <;> rfl

/-- C7: the handler consults the provider only at MaxKeys = 10 (two
providers agreeing there are indistinguishable to it), and whenever the
provider honors the MaxKeys bound, the objects array in the response has
at most 10 entries. -/
theorem maxkeys_ten_and_bound :
    (∀ (e env : Option String) (s3a s3b : String → Nat → ListResult),
      (∀ b, s3a b 10 = s3b b 10) →
      lambda_handler e env s3a = lambda_handler e env s3b) ∧
    (∀ (e env : Option String) (s3 : String → Nat → ListResult),
      (∀ b c, s3 b 10 = ListResult.success c → (c.getD []).length ≤ 10) →
      ∀ l, (lambda_handler e env s3).body.objects = some l →
        l.length ≤ 10) := by
  constructor
  · intro e env s3a s3b hagree
    unfold lambda_handler
    rcases pyOrStr e env with _ | b
    · rfl
    · by_cases hb : b = ""
      · simp [hb]
      · simp [hb, hagree b]
  · intro e env s3 hbound l hl
    rcases handler_cases e env s3 with ⟨_, hr⟩ | ⟨b, _, _, hr⟩
    · rw [hr] at hl
      simp [missingBucketResponse] at hl
    · rw [hr] at hl
      rcases hsr : s3 b 10 with c | cc | d <;> rw [hsr] at hl
      · simp [listAndRespond, successResponse] at hl
        subst hl
        simpa using hbound b c hsr
      · simp [listAndRespond, clientErrorResponse] at hl
      · simp [listAndRespond, unexpectedResponse] at hl

/-- Witness for C7: the two-file provider and a provider differing away
from MaxKeys = 10 give identical responses, and the bound instantiates
at the concrete two-element listing. -/
theorem maxkeys_ten_and_bound_witness :
    lambda_handler (some "test-bucket") none s3TwoFiles =
      lambda_handler (some "test-bucket") none s3Alt ∧
    ([{ key := "file1.txt", size := 1024, last_modified := "2024-01-01T12:00:00" },
      { key := "file2.txt", size := 2048, last_modified := "2024-01-02T12:00:00" }] :
        List ObjectSummary).length ≤ 10 := by
  constructor
  · exact maxkeys_ten_and_bound.1 (some "test-bucket") none s3TwoFiles s3Alt
      (fun b => by simp [s3Alt])
  · refine maxkeys_ten_and_bound.2 (some "test-bucket") none s3TwoFiles
      ?_ _ ?_
    · intro b c hc
      simp [s3TwoFiles] at hc
      rw [← hc]
      decide
    · decide

end BucketLister

namespace BucketLister

/-- C8 counterexample: the S3 handler's response dict contains no
headers key at all, so a concrete successful invocation carries no
Content-Type: application/json header, refuting the claim that every
response does. -/
theorem headers_claim_counterexample :
    hasHeader (lambda_handler (some "test-bucket") none s3TwoFiles)
      "Content-Type" "application/json" = false ∧
    (lambda_handler (some "test-bucket") none s3TwoFiles).headers = none := by
  exact ⟨rfl, rfl⟩

/-- C8 amended: the S3 handler sets no headers on any path; only the
hello-world variant handler sets headers, and it sends
Content-Type: application/json together with the open CORS header
Access-Control-Allow-Origin: * on its single (200) path. -/
theorem headers_policy_amended :
    (∀ (e env : Option String) (s3 : String → Nat → ListResult),
      (lambda_handler e env s3).headers = none) ∧
    (∀ (n : Option String) (now : PyDatetime) (ctx : Option LambdaContext),
      (hello_handler n now ctx).headers = some
        [("Content-Type", "application/json"),
         ("Access-Control-Allow-Origin", "*")] ∧
      hasHeader (hello_handler n now ctx) "Content-Type" "application/json"
        = true ∧
      hasHeader (hello_handler n now ctx) "Access-Control-Allow-Origin" "*"
        = true) := by
  constructor
  · intro e env s3
    rcases handler_cases e env s3 with ⟨_, hr⟩ | ⟨b, _, _, hr⟩
    · rw [hr]
      rfl
    · rw [hr]
      rcases s3 b 10 with c | cc | d <;> rfl
  · intro n now ctx
    exact ⟨rfl, rfl, rfl⟩

/-- C9: the handler is deterministic: invocations with equal events,
equal environment configuration and equal provider behaviour return
structurally identical response envelopes. -/
theorem handler_deterministic (e1 e2 env1 env2 : Option String)
    (s3a s3b : String → Nat → ListResult)
    (he : e1 = e2) (henv : env1 = env2) (hs : s3a = s3b) :
    lambda_handler e1 env1 s3a = lambda_handler e2 env2 s3b := by
  rw [he, henv, hs]

/-- Witness for C9: two identical concrete invocations coincide. -/
theorem handler_deterministic_witness :
    lambda_handler (some "test-bucket") none s3TwoFiles =
      lambda_handler (some "test-bucket") none s3TwoFiles :=
  handler_deterministic (some "test-bucket") (some "test-bucket") none none
    s3TwoFiles s3TwoFiles rfl rfl rfl

/-- C10: the manifest fields (bucket, object_count, objects) are present
in the body exactly when the status is 200, and the error field is
present exactly when the status is 500; the 400 body carries neither. -/
theorem manifest_fields_iff_200 (eventBucket envBucket : Option String)
    (s3 : String → Nat → ListResult) :
    ((lambda_handler eventBucket envBucket s3).body.bucket.isSome ↔
      (lambda_handler eventBucket envBucket s3).statusCode = 200) ∧
    ((lambda_handler eventBucket envBucket s3).body.object_count.isSome ↔
      (lambda_handler eventBucket envBucket s3).statusCode = 200) ∧
    ((lambda_handler eventBucket envBucket s3).body.objects.isSome ↔
      (lambda_handler eventBucket envBucket s3).statusCode = 200) ∧
    ((lambda_handler eventBucket envBucket s3).body.error.isSome ↔
      (lambda_handler eventBucket envBucket s3).statusCode = 500) := by
  rcases handler_cases eventBucket envBucket s3 with ⟨_, hr⟩ | ⟨b, _, _, hr⟩
  · rw [hr]
    simp [missingBucketResponse]
  · rw [hr]
    rcases s3 b 10 with c | cc | d <;>
      simp [listAndRespond, successResponse, clientErrorResponse,
        unexpectedResponse]

end BucketLister
